import Mathlib

/-
Verification of the Cap3D-Filtering repository: a shallow embedding of
src/filter_dataset.py (keyword-based caption partitioning) and
src/captions/download_captions.py (freshness-checked dataset synchronizer),
with theorems settling the specification claims.
-/

namespace Cap3D

/-! ## Caption tokenization and keyword matching (src/filter_dataset.py) -/

/-- The apostrophe character U+0027, named so that string literals in this
development never contain a literal apostrophe. -/
def apos : Char := Char.ofNat 39

/-- A one-character string holding the apostrophe. -/
def aposS : String := String.mk [apos]

/-- Model of Python str.lower on the ASCII captions and keywords at issue. -/
def pyLower (s : String) : String := String.mk (s.toList.map Char.toLower)

/-- Replacement of every occurrence of the single character c by the string
repl, the character-level meaning of str.replace with a one-character
pattern (the only patterns the source uses: "/", "-"). -/
def replaceChar (c : Char) (repl : List Char) (s : List Char) : List Char :=
  s.flatMap (fun x => if x = c then repl else [x])

/-- Embedding of the normalization in main, line 98:
desc.lower().replace("/", " / ").replace("-", " - "). -/
def preTokenize (desc : String) : String :=
  String.mk (replaceChar '-' [' ', '-', ' ']
    (replaceChar '/' [' ', '/', ' '] (pyLower desc).toList))

/-- Splitting a character list at every space, keeping empty pieces, the
character-level meaning of splitting on the one-character separator " ". -/
def splitOnSpace (s : List Char) : List (List Char) :=
  s.foldr
    (fun c acc =>
      if c = ' ' then [] :: acc
      else
        match acc with
        | [] => [[c]]
        | a :: as => (c :: a) :: as)
    [[]]

/-- Modelled from the spec: the general-purpose word tokenizer
(nltk.word_tokenize, line 105) is an external collaborator whose linguistic
behavior is out of scope; on the space-separated word captions used in the
claims it splits on the space character, which is how it is modelled. -/
def wordTokenize (s : String) : List String :=
  ((splitOnSpace s.toList).filter (fun t => !t.isEmpty)).map String.mk

/-- The Token Sequence of one description: lowercase, slash/hyphen spacing,
then word tokenization (main, lines 97 and 105). -/
def descTokens (desc : String) : List String :=
  wordTokenize (preTokenize desc)

/-- Embedding of token.replace("'", "") at line 116: removing every
occurrence of the one-character pattern is filtering that character out. -/
def stripApos (t : String) : String :=
  String.mk (t.toList.filter (fun c => c != apos))

/-- The corpus-wide vocabulary (main, lines 112 to 116): union over all
records of the apostrophe-stripped tokens.  The Python set is modelled as
a list read only through membership. -/
def vocab (records : List (String × String)) : List String :=
  records.flatMap (fun r => (descTokens r.2).map stripApos)

/-- Embedding of the keyword-set comprehension at lines 130 to 137: lowercased
keywords of every category not in the exclusion list, flattened.  The Python
set is modelled as a list read only through membership. -/
def buildKeywords (keywordsDict : List (String × List String))
    (excludedCategories : List String) : List String :=
  (keywordsDict.filter (fun p => !excludedCategories.contains p.1)).flatMap
    (fun p => p.2.map pyLower)

/-- Embedding of check_keywords (lines 142 to 154): true iff any token is in
the keyword set or the token with a trailing "s" appended is. -/
def check_keywords (keywords : List String) (tokens : List String) : Bool :=
  tokens.any (fun token => keywords.contains token || keywords.contains (token ++ "s"))

/-- The include decision of one record (line 157): check_keywords applied to
the record's raw token column. -/
def includeFlag (keywords : List String) (r : String × String) : Bool :=
  check_keywords keywords (descTokens r.2)

/-- Identifiers of the rows kept by the boolean mask include == True
(line 160); pandas boolean filtering preserves row order. -/
def includedIds (records : List (String × String)) (keywords : List String) :
    List String :=
  (records.filter (fun r => includeFlag keywords r)).map Prod.fst

/-- Identifiers of the rows kept by the boolean mask include == False
(line 161). -/
def excludedIds (records : List (String × String)) (keywords : List String) :
    List String :=
  (records.filter (fun r => !includeFlag keywords r)).map Prod.fst

/-! ## Dataset synchronizer (src/captions/download_captions.py)

The script runs at module level.  File contents are byte lists; the external
collaborators — the filesystem, the Checksum Oracle (utils.checksum, outside
src/), and the HTTP transport — enter as fields of the run environment. -/

/-- The constant CAPTIONS_DOWNLOAD_URL (line 53). -/
def CAPTIONS_DOWNLOAD_URL : String :=
  "https://huggingface.co/datasets/tiange/Cap3D/resolve/main/Cap3D_automated_Objaverse_full.csv?download=true"

/-- The constant path_to_captions (line 54), the canonical local path. -/
def path_to_captions : String := "Cap3D_automated_Objaverse_full.csv"

/-- Observable log lines of the synchronizer run. -/
inductive LogEvent where
  /-- logger.info at line 83: file up to date, no download attempted. -/
  | infoUpToDate : LogEvent
  /-- logger.warning at line 113: an empty stream chunk. -/
  | warnEmptyChunk : LogEvent
  /-- logger.info at lines 115 to 119: download completed, with URL and destination. -/
  | infoDownloadDone (url dest : String) : LogEvent
  /-- logger.error at lines 122 to 127: transport failure, with URL and destination. -/
  | errorDownload (url dest : String) : LogEvent
deriving DecidableEq, Repr

/-- Environment of one synchronizer run: the initial filesystem state and the
behavior of the external collaborators during this run. -/
structure SyncEnv where
  /-- Content of the canonical file before the run; none when the path is absent
  (os.path.exists, line 72). -/
  initial : Option (List Nat)
  /-- Verdict of the external Checksum Oracle perform_checksum (line 77). -/
  freshVerdict : Bool
  /-- Whether the canonical path still exists after os.rename (line 90); the
  hypothetical rename failure the assert at lines 91 to 93 guards against. -/
  renameLeavesSource : Bool
  /-- Whether requests.get and raise_for_status succeed (lines 98 to 102), so
  that the canonical file is opened for append at line 108. -/
  opened : Bool
  /-- Chunks delivered by response.iter_content (line 109) before the stream
  ends or fails. -/
  chunks : List (List Nat)
  /-- Whether a RequestException is raised after those chunks (caught at
  line 121). -/
  transportFails : Bool
deriving DecidableEq, Repr

/-- State at the end of a synchronizer run. -/
structure SyncState where
  /-- Content at the canonical path, none when absent. -/
  canonical : Option (List Nat)
  /-- Content stored under the timestamped archive name, none when no archive
  was made (the timestamp string itself comes from datetime, external). -/
  archived : Option (List Nat)
  /-- True when the assert at lines 91 to 93 failed, aborting the run. -/
  assertionFailed : Bool
  /-- True when the download branch at lines 95 to 127 was entered. -/
  downloadAttempted : Bool
  /-- True when the download completed without a transport failure. -/
  downloadCompleted : Bool
  /-- Log lines emitted, in order. -/
  log : List LogEvent
deriving DecidableEq, Repr

/-- The write loop at lines 109 to 113, chunk by chunk in stream order:
append each nonempty chunk to the current file content, log a warning for
each empty chunk. -/
def writeChunks (cur : List Nat) : List (List Nat) → List Nat × List LogEvent
  | [] => (cur, [])
  | c :: cs =>
    if c.isEmpty then
      let r := writeChunks cur cs
      (r.1, LogEvent.warnEmptyChunk :: r.2)
    else
      writeChunks (cur ++ c) cs

/-- The download branch at lines 95 to 127, entered with the canonical path
holding canonical0 (none when absent; open "ab" at line 108 creates it) and
the archive holding archived0.  The try/except catches only
RequestException; the error log carries the URL and the destination. -/
def downloadBranch (canonical0 archived0 : Option (List Nat)) (env : SyncEnv) :
    SyncState :=
  if !env.opened then
    { canonical := canonical0, archived := archived0, assertionFailed := false,
      downloadAttempted := true, downloadCompleted := false,
      log := [LogEvent.errorDownload CAPTIONS_DOWNLOAD_URL path_to_captions] }
  else
    let wr := writeChunks (canonical0.getD []) env.chunks
    if env.transportFails then
      { canonical := some wr.1, archived := archived0, assertionFailed := false,
        downloadAttempted := true, downloadCompleted := false,
        log := wr.2 ++ [LogEvent.errorDownload CAPTIONS_DOWNLOAD_URL path_to_captions] }
    else
      { canonical := some wr.1, archived := archived0, assertionFailed := false,
        downloadAttempted := true, downloadCompleted := true,
        log := wr.2 ++ [LogEvent.infoDownloadDone CAPTIONS_DOWNLOAD_URL path_to_captions] }

/-- The module-level script of download_captions.py (lines 70 to 127):
existence check, freshness check, archive-if-stale with the post-rename
assert, then the download branch when PERFORM_DOWNLOAD is still true. -/
def runSync (env : SyncEnv) : SyncState :=
  match env.initial with
  | some content =>
    if env.freshVerdict then
      { canonical := some content, archived := none, assertionFailed := false,
        downloadAttempted := false, downloadCompleted := false,
        log := [LogEvent.infoUpToDate] }
    else
      let canonicalAfter : Option (List Nat) :=
        if env.renameLeavesSource then some content else none
      if canonicalAfter.isSome then
        { canonical := canonicalAfter, archived := some content,
          assertionFailed := true, downloadAttempted := false,
          downloadCompleted := false, log := [] }
      else
        downloadBranch none (some content) env
  | none => downloadBranch none none env

/-- Concatenation of the nonempty chunks, the bytes the write loop appends. -/
def chunksConcat (chunks : List (List Nat)) : List Nat :=
  (chunks.filter (fun c => !c.isEmpty)).flatten

/-! ## Output serialization (main, lines 166 to 180) -/

/-- Model of os.path.dirname (posixpath.dirname): the part of the path up to
and including the last slash, then trailing slashes stripped unless the head
is all slashes.  A bare filename has dirname "". -/
def dirname (p : String) : String :=
  let head := (p.toList.reverse.dropWhile (fun c => c != '/')).reverse
  let head :=
    if !head.isEmpty && head.any (fun c => c != '/') then
      (head.reverse.dropWhile (fun c => c == '/')).reverse
    else head
  String.mk head

/-- Model of os.makedirs(name, exist_ok=True) as called at lines 169 to 170:
CPython raises FileNotFoundError when name is the empty string, even with
exist_ok=True; any other name succeeds (directories created or reused). -/
def makedirs (name : String) : Except String Unit :=
  if name = "" then Except.error "FileNotFoundError" else Except.ok ()

/-- The save step at lines 166 to 180: both makedirs calls run before both
file writes; on success the result lists the files written with their
contents, and an error means no output file was written. -/
def saveIds (incPath excPath : String) (inc exc : List String) :
    Except String (List (String × List String)) :=
  match makedirs (dirname incPath) with
  | Except.error e => Except.error e
  | Except.ok _ =>
    match makedirs (dirname excPath) with
    | Except.error e => Except.error e
    | Except.ok _ => Except.ok [(incPath, inc), (excPath, exc)]

/-! ## Helper lemmas -/

/-- The matching predicate in membership form: some token is a keyword, or
its form with a trailing "s" appended is. -/
theorem check_keywords_mem_iff (keywords tokens : List String) :
    check_keywords keywords tokens = true ↔
      ∃ token ∈ tokens, token ∈ keywords ∨ token ++ "s" ∈ keywords := by
  simp [check_keywords]

/-- Stripping apostrophes is idempotent. -/
theorem stripApos_fixpoint (t : String) : stripApos (stripApos t) = stripApos t := by
  simp [stripApos, List.filter_filter]

/-- The write loop appends exactly the concatenation of the nonempty chunks. -/
theorem writeChunks_fst (cur : List Nat) (chunks : List (List Nat)) :
    (writeChunks cur chunks).1 = cur ++ chunksConcat chunks := by
  induction chunks generalizing cur with
  | nil => simp [writeChunks, chunksConcat]
  | cons c cs ih =>
    by_cases hc : c.isEmpty
    · simp [writeChunks, chunksConcat, hc, ih]
    · simp [writeChunks, chunksConcat, hc, ih (cur ++ c), List.append_assoc]

/-! ## Claims -/

/-- C1, counterexample: with "chair" a keyword of a non-excluded category, a
caption whose only token is "chairs" does not satisfy the matching predicate
(the code checks token + "s" against the keyword set, so "chairs" tests
"chairs" and "chairss", neither of which is the keyword "chair"), and the
record's identifier is placed in the excluded list, not the included one. -/
theorem c1_plural_counterexample :
    check_keywords (buildKeywords [("furniture", ["chair"])] []) (descTokens "chairs") = false ∧
    includedIds [("r1", "chairs")] (buildKeywords [("furniture", ["chair"])] []) = [] ∧
    excludedIds [("r1", "chairs")] (buildKeywords [("furniture", ["chair"])] []) = ["r1"] := by
  decide

/-- C1, amended: the plural heuristic runs the other way round — the
token + s check matches the singular token "chair" against the plural keyword
"chairs".  For a corpus of a single caption whose token sequence contains
only the token "chair", and a keyword set built from a mapping in which
"chairs" is a keyword of a non-excluded category, the matching predicate
returns true and the record's identifier is placed in the included set, even
though "chair" itself is not a literal keyword. -/
theorem c1_plural_heuristic_amended :
    check_keywords (buildKeywords [("furniture", ["chairs"])] []) (descTokens "chair") = true ∧
    includedIds [("r1", "chair")] (buildKeywords [("furniture", ["chairs"])] []) = ["r1"] ∧
    excludedIds [("r1", "chair")] (buildKeywords [("furniture", ["chairs"])] []) = [] := by
  decide

/-- C2, counterexample: the matching predicate is evaluated on the raw token
column, not on apostrophe-stripped tokens.  A caption whose tokens include an
apostrophe-bearing token, with the keyword set holding exactly its
apostrophe-free base form, is excluded by the code — although the predicate
on the stripped token sequence would return true, as the claim asserts. -/
theorem c2_strip_counterexample :
    includedIds [("r1", "five o" ++ aposS ++ "clock")]
      (buildKeywords [("time", ["oclock"])] []) = [] ∧
    excludedIds [("r1", "five o" ++ aposS ++ "clock")]
      (buildKeywords [("time", ["oclock"])] []) = ["r1"] ∧
    check_keywords (buildKeywords [("time", ["oclock"])] [])
      ((descTokens ("five o" ++ aposS ++ "clock")).map stripApos) = true := by
  decide

/-- C2, amended: internal apostrophes are removed only from the tokens
accumulated into the corpus vocabulary — every vocabulary member is a fixed
point of stripApos — while the tokens the matching predicate is evaluated on
keep their apostrophes, so an apostrophe-bearing token does not match the
keyword equal to its apostrophe-free base form: the record above is excluded
even though its stripped token is both in the vocabulary and a keyword. -/
theorem c2_strip_amended :
    (∀ (records : List (String × String)) (t : String),
      t ∈ vocab records → stripApos t = t) ∧
    "oclock" ∈ vocab [("r1", "five o" ++ aposS ++ "clock")] ∧
    "oclock" ∈ buildKeywords [("time", ["oclock"])] [] ∧
    excludedIds [("r1", "five o" ++ aposS ++ "clock")]
      (buildKeywords [("time", ["oclock"])] []) = ["r1"] := by
  refine ⟨?_, by decide, by decide, by decide⟩
  intro records t ht
  simp only [vocab, List.mem_flatMap, List.mem_map] at ht
  obtain ⟨r, -, tok, -, rfl⟩ := ht
  exact stripApos_fixpoint tok

/-- C2, amended, witness: the first conjunct applied to the concrete record
above and its vocabulary member "oclock". -/
theorem c2_strip_amended_witness :
    stripApos "oclock" = "oclock" :=
  c2_strip_amended.1 [("r1", "five o" ++ aposS ++ "clock")] "oclock" (by decide)

/-- C4: for every token sequence and keyword set, the matching predicate is
true iff some token is in the keyword set or that token with a literal
trailing "s" appended is; on the empty token sequence it is false. -/
theorem c4_check_keywords_iff (keywords tokens : List String) :
    (check_keywords keywords tokens = true ↔
      ∃ token ∈ tokens, token ∈ keywords ∨ token ++ "s" ∈ keywords) ∧
    check_keywords keywords [] = false :=
  ⟨check_keywords_mem_iff keywords tokens, rfl⟩

/-- C3: the Partitioner places each identifier in exactly one of the two
output lists — their members together are exactly the corpus identifiers,
and (identifiers being unique within the corpus) no identifier is in both —
and each output list is a sublist of the corpus identifier list in corpus
order (stable partition, no re-sorting). -/
theorem c3_partition_invariant (records : List (String × String))
    (keywords : List String) (h : (records.map Prod.fst).Nodup) :
    (∀ i, (i ∈ includedIds records keywords ∨ i ∈ excludedIds records keywords) ↔
        i ∈ records.map Prod.fst) ∧
    (∀ i, ¬(i ∈ includedIds records keywords ∧ i ∈ excludedIds records keywords)) ∧
    (includedIds records keywords).Sublist (records.map Prod.fst) ∧
    (excludedIds records keywords).Sublist (records.map Prod.fst) := by
  refine ⟨?_, ?_, ?_, ?_⟩
  · intro i
    simp only [includedIds, excludedIds, List.mem_map, List.mem_filter]
    constructor
    · rintro (⟨r, ⟨hr, -⟩, rfl⟩ | ⟨r, ⟨hr, -⟩, rfl⟩) <;> exact ⟨r, hr, rfl⟩
    · rintro ⟨r, hr, rfl⟩
      by_cases hp : includeFlag keywords r = true
      · exact Or.inl ⟨r, ⟨hr, hp⟩, rfl⟩
      · exact Or.inr ⟨r, ⟨hr, by simp [hp]⟩, rfl⟩
  · rintro i ⟨hinc, hexc⟩
    simp only [includedIds, excludedIds, List.mem_map, List.mem_filter] at hinc hexc
    obtain ⟨r1, ⟨hr1, hp1⟩, h1⟩ := hinc
    obtain ⟨r2, ⟨hr2, hp2⟩, h2⟩ := hexc
    have heq : r1 = r2 := List.inj_on_of_nodup_map h hr1 hr2 (h1.trans h2.symm)
    rw [heq] at hp1
    simp [hp1] at hp2
  · exact (List.filter_sublist _).map Prod.fst
  · exact (List.filter_sublist _).map Prod.fst

/-- C3, witness: the invariant applied to a concrete two-record corpus. -/
theorem c3_partition_invariant_witness :
    ("id1" ∈ includedIds [("id1", "a red chair"), ("id2", "a lamp")] ["chair"] ∨
     "id1" ∈ excludedIds [("id1", "a red chair"), ("id2", "a lamp")] ["chair"]) ↔
    "id1" ∈ ([("id1", "a red chair"), ("id2", "a lamp")].map Prod.fst) :=
  (c3_partition_invariant [("id1", "a red chair"), ("id2", "a lamp")] ["chair"]
    (by decide)).1 "id1"

/-- C7: the matching predicate is monotone in the keyword set — with the
corpus and tokenization fixed, enlarging the keyword set can only turn the
predicate from false to true, so identifiers can only move from the excluded
list to the included list, never the reverse. -/
theorem c7_keyword_monotone (K K2 : List String) (hsub : ∀ k, k ∈ K → k ∈ K2) :
    (∀ tokens, check_keywords K tokens = true → check_keywords K2 tokens = true) ∧
    (∀ (records : List (String × String)) i,
      i ∈ includedIds records K → i ∈ includedIds records K2) ∧
    (∀ (records : List (String × String)) i,
      i ∈ excludedIds records K2 → i ∈ excludedIds records K) := by
  have mono : ∀ tokens, check_keywords K tokens = true →
      check_keywords K2 tokens = true := by
    intro tokens hK
    rw [check_keywords_mem_iff] at hK ⊢
    obtain ⟨t, ht, hk⟩ := hK
    exact ⟨t, ht, hk.imp (hsub _) (hsub _)⟩
  refine ⟨mono, ?_, ?_⟩
  · intro records i hi
    simp only [includedIds, List.mem_map, List.mem_filter] at hi ⊢
    obtain ⟨r, ⟨hr, hp⟩, rfl⟩ := hi
    exact ⟨r, ⟨hr, mono _ hp⟩, rfl⟩
  · intro records i hi
    simp only [excludedIds, List.mem_map, List.mem_filter] at hi ⊢
    obtain ⟨r, ⟨hr, hp⟩, rfl⟩ := hi
    refine ⟨r, ⟨hr, ?_⟩, rfl⟩
    simp only [Bool.not_eq_true'] at hp ⊢
    by_contra hne
    have htrue : includeFlag K r = true := by
      revert hne; cases includeFlag K r <;> simp
    have h2 := mono (descTokens r.2) htrue
    simp [includeFlag, h2] at hp

/-- C7, witness: monotonicity applied to concrete keyword sets and a
concrete token sequence. -/
theorem c7_keyword_monotone_witness :
    check_keywords ["chair", "table"] (descTokens "a red chair") = true :=
  (c7_keyword_monotone ["chair"] ["chair", "table"] (by decide)).1
    (descTokens "a red chair") (by decide)

/-- C8: the keyword set is exactly the lowercased keywords of the
non-excluded categories, flattened; and on the specified example a lamp
caption is excluded (its keyword sits only under the excluded category) while
a chair caption is included. -/
theorem c8_category_exclusion :
    (∀ (dict : List (String × List String)) (excl : List String) (k : String),
      k ∈ buildKeywords dict excl ↔
        ∃ p ∈ dict, p.1 ∉ excl ∧ ∃ w ∈ p.2, pyLower w = k) ∧
    buildKeywords [("furniture", ["chair"]), ("banned", ["lamp"])] ["banned"] = ["chair"] ∧
    includedIds [("id1", "a lamp on a table"), ("id2", "a red chair")]
      (buildKeywords [("furniture", ["chair"]), ("banned", ["lamp"])] ["banned"]) = ["id2"] ∧
    excludedIds [("id1", "a lamp on a table"), ("id2", "a red chair")]
      (buildKeywords [("furniture", ["chair"]), ("banned", ["lamp"])] ["banned"]) = ["id1"] := by
  refine ⟨?_, by decide, by decide, by decide⟩
  intro dict excl k
  simp only [buildKeywords, List.mem_flatMap, List.mem_filter, List.mem_map]
  constructor
  · rintro ⟨p, ⟨hp, hne⟩, w, hw, rfl⟩
    exact ⟨p, hp, by simpa using hne, w, hw, rfl⟩
  · rintro ⟨p, hp, hne, w, hw, rfl⟩
    exact ⟨p, ⟨hp, by simpa using hne⟩, w, hw, rfl⟩

/-- C5: when the canonical path still exists after the archive rename, the
run fails the assert and stops before the download branch; and the download
branch is reached only when the canonical file was absent or the rename left
the canonical path gone. -/
theorem c5_abort_before_download (env : SyncEnv) (content : List Nat)
    (h1 : env.initial = some content) (h2 : env.freshVerdict = false)
    (h3 : env.renameLeavesSource = true) :
    ((runSync env).assertionFailed = true ∧
     (runSync env).downloadAttempted = false) ∧
    (∀ e : SyncEnv, (runSync e).downloadAttempted = true →
      e.initial = none ∨ (e.freshVerdict = false ∧ e.renameLeavesSource = false)) := by
  constructor
  · constructor <;> simp [runSync, h1, h2, h3]
  · intro e he
    rcases hi : e.initial with _ | c
    · exact Or.inl rfl
    · right
      by_cases hf : e.freshVerdict = true
      · exfalso; simp [runSync, hi, hf] at he
      · by_cases hr : e.renameLeavesSource = true
        · exfalso; simp [runSync, hi, hf, hr] at he
        · simp only [Bool.not_eq_true] at hf hr
          exact ⟨hf, hr⟩

/-- C5, witness: the assert-failure environment at a concrete input. -/
theorem c5_abort_before_download_witness :
    (runSync ⟨some [1], false, true, true, [[2]], false⟩).downloadAttempted = false :=
  ((c5_abort_before_download ⟨some [1], false, true, true, [[2]], false⟩ [1]
    rfl rfl rfl).1).2

/-- C6: when the canonical file exists and the Checksum Oracle reports it
fresh, the run performs no archive rename and no download attempt: the end
state keeps the canonical content unchanged, archives nothing, and logs only
the up-to-date line. -/
theorem c6_fresh_frame (env : SyncEnv) (content : List Nat)
    (h1 : env.initial = some content) (h2 : env.freshVerdict = true) :
    runSync env =
      { canonical := some content, archived := none, assertionFailed := false,
        downloadAttempted := false, downloadCompleted := false,
        log := [LogEvent.infoUpToDate] } := by
  simp [runSync, h1, h2]

/-- C6, witness: the fresh run at a concrete input. -/
theorem c6_fresh_frame_witness :
    runSync ⟨some [1], true, false, true, [], false⟩ =
      { canonical := some [1], archived := none, assertionFailed := false,
        downloadAttempted := false, downloadCompleted := false,
        log := [LogEvent.infoUpToDate] } :=
  c6_fresh_frame ⟨some [1], true, false, true, [], false⟩ [1] rfl rfl

/-- C9: on a transport failure during the streamed download the exception is
caught: the run ends without an assertion failure and without completing the
download, the last log line is the error carrying the source URL and the
destination path, and the canonical file holds exactly the bytes appended so
far (the nonempty chunks received before the failure) — not deleted, not
rolled back. -/
theorem c9_transport_failure (env : SyncEnv)
    (hatt : (runSync env).downloadAttempted = true)
    (hopen : env.opened = true) (hfail : env.transportFails = true) :
    (runSync env).assertionFailed = false ∧
    (runSync env).downloadCompleted = false ∧
    (runSync env).canonical = some (chunksConcat env.chunks) ∧
    (runSync env).log.getLast? =
      some (LogEvent.errorDownload CAPTIONS_DOWNLOAD_URL path_to_captions) := by
  have key : ∀ archived0 : Option (List Nat),
      (downloadBranch none archived0 env).assertionFailed = false ∧
      (downloadBranch none archived0 env).downloadCompleted = false ∧
      (downloadBranch none archived0 env).canonical = some (chunksConcat env.chunks) ∧
      (downloadBranch none archived0 env).log.getLast? =
        some (LogEvent.errorDownload CAPTIONS_DOWNLOAD_URL path_to_captions) := by
    intro archived0
    simp [downloadBranch, hopen, hfail, writeChunks_fst, List.getLast?_concat]
  rcases hi : env.initial with _ | c
  · have hrs : runSync env = downloadBranch none none env := by
      simp [runSync, hi]
    rw [hrs]; exact key none
  · by_cases hf : env.freshVerdict = true
    · exfalso; simp [runSync, hi, hf] at hatt
    · by_cases hr : env.renameLeavesSource = true
      · exfalso; simp [runSync, hi, hf, hr] at hatt
      · have hrs : runSync env = downloadBranch none (some c) env := by
          simp [runSync, hi, hf, hr]
        rw [hrs]; exact key (some c)

/-- C9, witness: a failing download over three chunks (one empty) leaves the
two nonempty chunks in the canonical file. -/
theorem c9_transport_failure_witness :
    (runSync ⟨none, false, false, true, [[1], [], [2]], true⟩).canonical =
      some (chunksConcat [[1], [], [2]]) :=
  (c9_transport_failure ⟨none, false, false, true, [[1], [], [2]], true⟩
    (by decide) rfl rfl).2.2.1

/-- C10: an output path with no directory component has dirname "", the
makedirs call on "" raises, and the save step errors out before either
output file is written (the written-files list exists only in the ok
result). -/
theorem c10_bare_output_path_fails (incPath excPath : String)
    (inc exc : List String)
    (h : dirname incPath = "" ∨ dirname excPath = "") :
    ∃ e, saveIds incPath excPath inc exc = Except.error e := by
  refine ⟨"FileNotFoundError", ?_⟩
  rcases h with h | h
  · simp [saveIds, makedirs, h]
  · by_cases h1 : dirname incPath = ""
    · simp [saveIds, makedirs, h1]
    · simp [saveIds, makedirs, h, h1]

/-- C10, witness: bare filenames for both output paths make the save step
fail. -/
theorem c10_bare_output_path_fails_witness :
    ∃ e, saveIds "included.json" "excluded.json" ["a"] ["b"] = Except.error e :=
  c10_bare_output_path_fails "included.json" "excluded.json" ["a"] ["b"]
    (Or.inl (by decide))

end Cap3D
